import Mathlib

/-!
Shallow embedding of the Travel RAG pipeline (src/src/rag/) in Lean 4.

The embedding follows the Python source file by file:
  - `vector_store.py`  : `TravelVectorStore.add_documents`, `.search`,
    `.get_collection_stats` over an explicit `Store` state.
  - `retriever.py`     : `retrieve_relevant_context`, `build_context_prompt`,
    `get_travel_recommendations`, `search_destinations`.
  - `generator.py`     : `generate_travel_response`, `generate_travel_plan`,
    `_format_preferences` and the mock variants.
  - `rag_pipeline.py`  : `process_query`, `create_travel_plan`,
    `search_destinations`, `add_travel_documents`.

External collaborators (the SentenceTransformer embedding model, the ChromaDB
collection, the OpenAI chat call) are modelled as oracles/parameters:
  - the embedding model is a function `String → Except String Embedding`
    (an `Except.error` models the model raising an exception);
  - the ChromaDB collection is the list of stored records; `collection.add`
    appends (its possible failure is the oracle `addFail`), and
    `collection.query` is nearest-neighbour search under squared-L2 distance
    (ChromaDB's default space) restricted by an exact-match conjunctive
    metadata filter, with a `queryFail` oracle for an internal query error;
  - the LLM is an optional function (absent = no OPENAI_API_KEY, i.e. mock
    mode) returning `Except String String`.

Python dictionaries with a fixed key set (stored metadata, result records)
become Lean structures; user-preference dictionaries, whose keys are open,
become association lists over a Python-value type `PrefValue` with Python
truthiness.  A bare `except Exception` in the orchestrator is modelled by an
`exc : Option String` oracle: `some e` means some step of the `try` block
raised an exception rendering as `e`.
-/

/-- Embedding vectors: fixed-length numeric vectors.  The reals produced by
the sentence-transformer are abstracted to integers; nothing in the pipeline
logic depends on the number type, only on the ordering of distances. -/
abbrev Embedding := List Int

/-- A travel document handed to `add_documents`: the Python code reads
`doc['content']` (mandatory key) and `doc.get(...)` for the optional keys,
so `content` is a plain field and the rest are `Option`s. -/
structure TravelDoc where
  content : String
  source : Option String
  title : Option String
  destination : Option String
  category : Option String
deriving DecidableEq, Repr

/-- Stored metadata: `add_documents` always writes these four keys. -/
structure DocMeta where
  source : String
  title : String
  destination : String
  category : String
deriving DecidableEq, Repr

/-- Metadata construction inside `TravelVectorStore.add_documents`
(vector_store.py lines 46-51): `doc.get('source', 'unknown')`,
`doc.get('title', '')`, `doc.get('destination', '')`,
`doc.get('category', 'general')`. -/
def docMetadata (doc : TravelDoc) : DocMeta :=
  { source := doc.source.getD "unknown"
    title := doc.title.getD ""
    destination := doc.destination.getD ""
    category := doc.category.getD "general" }

/-- One record of the ChromaDB collection. -/
structure StoredRecord where
  id : String
  content : String
  embedding : Embedding
  metadata : DocMeta
deriving DecidableEq, Repr

/-- The ChromaDB collection state: an append-only list of records. -/
structure Store where
  records : List StoredRecord
deriving DecidableEq, Repr

/-- Oracles for the external collaborators of the vector store: the
sentence-transformer (`embed`), a failure of `collection.add` (`addFail`,
`some e` = the call raises an exception rendering as `e`) and a failure of
`collection.query` (`queryFail`). -/
structure Env where
  embed : String → Except String Embedding
  addFail : Option String
  queryFail : Bool

/-- Batch embedding: `self.embedding_model.encode(texts)` either fails as a
whole or yields one vector per text. -/
def embedAll (embed : String → Except String Embedding) : List String → Except String (List Embedding)
  | [] => Except.ok []
  | t :: ts =>
    match embed t with
    | Except.error e => Except.error e
    | Except.ok v =>
      match embedAll embed ts with
      | Except.error e => Except.error e
      | Except.ok vs => Except.ok (v :: vs)

/-- Zip the parallel lists built by the `for i, doc in enumerate(documents)`
loop into collection records. -/
def mkRecords : List String → List String → List Embedding → List DocMeta → List StoredRecord
  | id :: ids, t :: ts, e :: es, m :: ms => ⟨id, t, e, m⟩ :: mkRecords ids ts es ms
  | _, _, _, _ => []

/-- The ids assigned by the enumerate loop: `f"doc_{i}"` for `i` the position
of the document in this batch. -/
def batchIds (k : Nat) : List String :=
  (List.range k).map (fun i => "doc_" ++ toString i)

/-- TravelVectorStore.add_documents (vector_store.py lines 36-68): builds
ids/texts/metadatas, embeds the batch, appends to the collection; any
exception is logged and re-raised (`Except.error`).  On error the store is
untouched: the only mutation point is the single `collection.add` call, and
the embedding step precedes it. -/
def add_documents (env : Env) (st : Store) (documents : List TravelDoc) : Except String Store :=
  let ids := batchIds documents.length
  let texts := documents.map (fun d => d.content)
  let metadatas := documents.map docMetadata
  match embedAll env.embed texts with
  | Except.error e => Except.error e
  | Except.ok embeddings =>
    match env.addFail with
    | some e => Except.error e
    | none => Except.ok { records := st.records ++ mkRecords ids texts embeddings metadatas }

/-- TravelVectorStore.get_collection_stats (vector_store.py lines 98-109):
`total_documents` is `collection.count()`. -/
structure CollectionStats where
  total_documents : Nat
  collection_name : String
deriving DecidableEq, Repr

def get_collection_stats (st : Store) : CollectionStats :=
  { total_documents := st.records.length, collection_name := "travel_knowledge" }

/-- Result record of TravelRAGPipeline.add_travel_documents. -/
structure AddResult where
  status : String
  documents_added : Nat
  message : String
deriving DecidableEq, Repr

/-- TravelRAGPipeline.add_travel_documents (rag_pipeline.py lines 131-148):
delegates to `add_documents`; on success returns status "success" with the
batch length, on an exception returns status "error" with 0 documents added.
The returned `Store` is the index state after the call. -/
def add_travel_documents (env : Env) (st : Store) (documents : List TravelDoc) : AddResult × Store :=
  match add_documents env st documents with
  | Except.ok st' =>
    ({ status := "success"
       documents_added := documents.length
       message := "Successfully added " ++ toString documents.length ++ " documents to the travel knowledge base" }, st')
  | Except.error e =>
    ({ status := "error"
       documents_added := 0
       message := "Error adding documents: " ++ e }, st)

/-- A Python value stored in an open (user-preference) dictionary: the code
distinguishes lists (joined with ", ") from other values (interpolated), and
`None`/empty values are falsy. -/
inductive PrefValue where
  | str : String → PrefValue
  | list : List String → PrefValue
  | noneV : PrefValue
deriving DecidableEq, Repr

/-- Python truthiness of a preference value: empty string, empty list and
None are falsy. -/
def truthy : PrefValue → Bool
  | PrefValue.str s => !(s == "")
  | PrefValue.list l => !l.isEmpty
  | PrefValue.noneV => false

/-- User preferences: an insertion-ordered Python dict, modelled as an
association list (keys unique in any dict-produced value). -/
abbrev Prefs := List (String × PrefValue)

/-- Python `d.get(k)`: the value of the first entry with key `k`, if any. -/
def prefsGet (p : Prefs) (k : String) : Option PrefValue :=
  (p.find? (fun kv => kv.1 == k)).map (fun kv => kv.2)

/-- The single-quote character, as used by Python `repr`. -/
def pyQuote : String := String.singleton (Char.ofNat 39)

/-- Python f-string interpolation `f"{v}"` of a preference value. -/
def pyStr : PrefValue → String
  | PrefValue.str s => s
  | PrefValue.list l => "[" ++ String.intercalate ", " (l.map (fun s => pyQuote ++ s ++ pyQuote)) ++ "]"
  | PrefValue.noneV => "None"

/-- Python `sep.join(v)`: joins a list, or the characters of a string; the
`None` case would raise in Python but is unreachable behind truthiness
guards, so it is given a dummy value here. -/
def pyJoin (sep : String) : PrefValue → String
  | PrefValue.list l => String.intercalate sep l
  | PrefValue.str s => String.intercalate sep (s.data.map (fun c => String.singleton c))
  | PrefValue.noneV => ""

/-- Python `repr` of a preference dict, used by the mock travel plan
(`f"...: {preferences} ..."`). -/
def pyDictRepr (p : Prefs) : String :=
  "\x7b" ++ String.intercalate ", "
    (p.map (fun kv => pyQuote ++ kv.1 ++ pyQuote ++ ": " ++
      (match kv.2 with
       | PrefValue.str s => pyQuote ++ s ++ pyQuote
       | v => pyStr v))) ++ "\x7d"

/-- Metadata lookup for the ChromaDB exact-match `where` filter: stored
metadata has exactly the four keys written by `add_documents`. -/
def metaGet (m : DocMeta) (k : String) : Option String :=
  if k == "source" then some m.source
  else if k == "title" then some m.title
  else if k == "destination" then some m.destination
  else if k == "category" then some m.category
  else none

/-- One record satisfies the conjunction of exact-match predicates of a
ChromaDB `where` dict.  A non-string filter value (a list, `None`) is not a
valid exact-match value and matches nothing. -/
def matchesFilter (filter : List (String × PrefValue)) (m : DocMeta) : Bool :=
  filter.all (fun kv =>
    match kv.2 with
    | PrefValue.str s => metaGet m kv.1 == some s
    | _ => false)

/-- Squared-L2 distance, ChromaDB's default space for a collection created
without an `hnsw:space` setting. -/
def sqDist (a b : Embedding) : Int :=
  ((a.zip b).map (fun p => (p.1 - p.2) * (p.1 - p.2))).sum

/-- Ordering of scored records by distance (closest first). -/
def distLE (a b : StoredRecord × Int) : Prop := a.2 ≤ b.2

instance : DecidableRel distLE := fun a b => inferInstanceAs (Decidable (a.2 ≤ b.2))

instance : IsTotal (StoredRecord × Int) distLE := ⟨fun a b => Int.le_total a.2 b.2⟩

instance : IsTrans (StoredRecord × Int) distLE := ⟨fun _ _ _ => Int.le_trans⟩

/-- The ChromaDB `collection.query` call: filter by the `where` dict, order
by distance to the query embedding (nearest first), return the first
`n_results` records with their distances. -/
def queryCollection (records : List StoredRecord) (qe : Embedding) (n_results : Nat)
    (filter_dict : Option (List (String × PrefValue))) : List (StoredRecord × Int) :=
  let candidates := records.filter (fun r =>
    match filter_dict with
    | none => true
    | some f => matchesFilter f r.metadata)
  (List.insertionSort distLE (candidates.map (fun r => (r, sqDist qe r.embedding)))).take n_results

/-- One formatted result of `TravelVectorStore.search`. -/
structure SearchResult where
  content : String
  metadata : DocMeta
  distance : Int
deriving DecidableEq, Repr

/-- TravelVectorStore.search (vector_store.py lines 70-96): embed the query,
query the collection, format the results; any exception inside the `try`
(embedding failure or query failure) is caught and yields `[]`. -/
def vs_search (env : Env) (st : Store) (query : String) (n_results : Nat)
    (filter_dict : Option (List (String × PrefValue))) : List SearchResult :=
  match env.embed query with
  | Except.error _ => []
  | Except.ok qe =>
    if env.queryFail then []
    else (queryCollection st.records qe n_results filter_dict).map
      (fun rd => { content := rd.1.content, metadata := rd.1.metadata, distance := rd.2 })

/-- TravelRetriever.retrieve_relevant_context (retriever.py lines 17-41):
build the filter dict from the truthy filters and delegate to
`vs_search`; an empty dict is passed as `None`. -/
def filterEntry (k : String) (o : Option PrefValue) : List (String × PrefValue) :=
  match o with
  | some v => if truthy v then [(k, v)] else []
  | none => []

def retrieve_relevant_context (env : Env) (st : Store) (query : String) (n_results : Nat)
    (destination_filter category_filter : Option PrefValue) : List SearchResult :=
  let fd : List (String × PrefValue) :=
    filterEntry "destination" destination_filter ++ filterEntry "category" category_filter
  vs_search env st query n_results (if fd.isEmpty then none else some fd)

/-- Python `"\n".join(parts)`. -/
def joinLines : List String → String
  | [] => ""
  | [x] => x
  | x :: y :: xs => x ++ "\n" ++ joinLines (y :: xs)

/-- Python `enumerate(l, k)`. -/
def enumFrom {α : Type} : Nat → List α → List (Nat × α)
  | _, [] => []
  | k, x :: xs => (k, x) :: enumFrom (k + 1) xs

/-- The `source | destination | category` line of one context block
(retriever.py lines 55-60). -/
def metaLine (m : DocMeta) : String :=
  "Source: " ++ m.source ++ " | Destination: " ++ m.destination ++ " | Category: " ++ m.category

/-- The three parts appended for document `i` inside the rendering loop. -/
def docBlock (i : Nat) (d : SearchResult) : List String :=
  ["\n--- Document " ++ toString i ++ " ---", metaLine d.metadata, "Content: " ++ d.content]

/-- TravelRetriever.build_context_prompt (retriever.py lines 43-63). -/
def build_context_prompt (query : String) (retrieved_docs : List SearchResult) : String :=
  match retrieved_docs with
  | [] => "Query: " ++ query ++ "\n\nNo relevant travel information found."
  | _ =>
    joinLines (("Query: " ++ query ++ "\n\nRelevant travel information:") ::
      (enumFrom 1 retrieved_docs).flatMap (fun p => docBlock p.1 p.2))

/-- The query string derived from preferences inside
TravelRetriever.get_travel_recommendations (retriever.py lines 68-79). -/
def queryPart (o : Option PrefValue) (g : PrefValue → String) : List String :=
  match o with
  | some v => if truthy v then [g v] else []
  | none => []

def rec_query (prefs : Prefs) : String :=
  let query_parts : List String :=
    queryPart (prefsGet prefs "destination") (fun v => "travel to " ++ pyStr v) ++
    queryPart (prefsGet prefs "budget") (fun v => "budget " ++ pyStr v) ++
    queryPart (prefsGet prefs "duration") (fun v => pyStr v ++ " days") ++
    queryPart (prefsGet prefs "interests") (fun v => "activities: " ++ pyJoin ", " v)
  if query_parts.isEmpty then "travel recommendations" else String.intercalate " " query_parts

/-- TravelRetriever.get_travel_recommendations (retriever.py lines 65-92):
derive the query, retrieve 8 results with the raw `destination` preference
as destination filter. -/
def get_travel_recommendations (env : Env) (st : Store) (prefs : Prefs) : List SearchResult :=
  retrieve_relevant_context env st (rec_query prefs) 8 (prefsGet prefs "destination") none

/-- Destination-set accumulation of TravelRetriever.search_destinations
(retriever.py lines 102-107): keep each non-empty tag whose lowercasing is
not "general", once.  Python collects into a `set`, whose iteration order is
unspecified; first-occurrence order is one admissible materialisation, and
all theorems below are order-insensitive. -/
def strLower (s : String) : String := ⟨s.data.map Char.toLower⟩

def dedupStep (acc : List String) (doc : SearchResult) : List String :=
  let dest := doc.metadata.destination
  if !(dest == "") && !(strLower dest == "general") && !(acc.contains dest)
  then acc ++ [dest] else acc

def dedupDests (results : List SearchResult) : List String :=
  results.foldl dedupStep []

/-- One entry of the destination list: the Python dict `{'destination': d}`. -/
structure DestEntry where
  destination : String
deriving DecidableEq, Repr

/-- TravelRetriever.search_destinations (retriever.py lines 94-113). -/
def retriever_search_destinations (env : Env) (st : Store) (search_term : String) : List DestEntry :=
  (dedupDests (retrieve_relevant_context env st
    ("destinations and places to visit in " ++ search_term) 10 none none)).map
    (fun d => { destination := d })

/-- The generation backend: `some call` models a configured ChatOpenAI
client (`call system_message user_message`, an `Except.error` modelling the
API call raising), `none` models the absent OPENAI_API_KEY (mock mode). -/
abbrev LLM := Option (String → String → Except String String)

/-- System prompt of TravelGenerator.generate_travel_response
(generator.py lines 39-48). -/
def response_system_prompt : String :=
  "You are an expert travel planner and guide. Use the provided context to answer travel-related questions accurately and helpfully. \n\nYour responses should be:\n- Informative and detailed\n- Practical and actionable\n- Friendly and engaging\n- Based on the provided context\n- Include specific recommendations when possible\n\nIf the context doesn" ++ pyQuote ++ "t contain enough information, acknowledge this and provide general travel advice."

/-- TravelGenerator._generate_mock_response (generator.py lines 134-136). -/
def mock_response (query : String) : String :=
  "Based on the available travel information, here" ++ pyQuote ++
  "s what I found for your query: " ++ pyQuote ++ query ++ pyQuote ++
  ". The context contains relevant travel details that would help answer your question. For a complete response, please ensure the OpenAI API key is configured."

/-- TravelGenerator.generate_travel_response (generator.py lines 32-64):
mock when no client, otherwise the API call; an API exception is caught and
converted to a fixed apology. -/
def generate_travel_response (llm : LLM) (query context : String) : String :=
  match llm with
  | none => mock_response query
  | some call =>
    match call response_system_prompt ("Context:\n" ++ context ++ "\n\nUser Question: " ++ query) with
    | Except.ok r => r
    | Except.error _ => "I apologize, but I encountered an error while processing your request. Please try again."

/-- TravelGenerator._format_preferences (generator.py lines 123-132): one
`"key: value"` line per truthy entry, in dict iteration order, lists joined
with ", ". -/
def format_preferences (prefs : Prefs) : String :=
  joinLines ((prefs.filter (fun kv => truthy kv.2)).map (fun kv =>
    kv.1 ++ ": " ++
      (match kv.2 with
       | PrefValue.list l => String.intercalate ", " l
       | v => pyStr v)))

/-- System prompt of TravelGenerator.generate_travel_plan
(generator.py lines 73-82). -/
def plan_system_prompt : String :=
  "You are an expert travel planner. Create detailed, personalized travel plans based on user preferences and available information.\n\nYour travel plans should include:\n- Day-by-day itinerary\n- Recommended activities and attractions\n- Budget considerations\n- Practical tips and advice\n- Alternative options when possible\n\nMake the plan practical, enjoyable, and tailored to the user" ++ pyQuote ++ "s preferences."

/-- User message of TravelGenerator.generate_travel_plan (line 86). -/
def plan_user_message (prefs : Prefs) (context : String) : String :=
  "Context:\n" ++ context ++ "\n\nUser Preferences:\n" ++ format_preferences prefs ++ "\n\nPlease create a detailed travel plan."

/-- TravelGenerator._generate_mock_travel_plan (generator.py lines 138-140). -/
def mock_travel_plan (prefs : Prefs) : String :=
  "I would create a personalized travel plan based on your preferences: " ++ pyDictRepr prefs ++
  " and the available travel information. For a detailed plan, please ensure the OpenAI API key is configured."

/-- TravelGenerator.generate_travel_plan (generator.py lines 66-99). -/
def generate_travel_plan (llm : LLM) (prefs : Prefs) (context : String) : String :=
  match llm with
  | none => mock_travel_plan prefs
  | some call =>
    match call plan_system_prompt (plan_user_message prefs context) with
    | Except.ok r => r
    | Except.error _ => "I apologize, but I encountered an error while creating your travel plan. Please try again."

/-- Result record of TravelRAGPipeline.process_query: the dict always has
exactly these four keys, in both the success and the error branch. -/
structure QueryResult where
  query : String
  response : String
  retrieved_documents : List SearchResult
  context : String
deriving DecidableEq, Repr

/-- TravelRAGPipeline.process_query (rag_pipeline.py lines 21-47).  The
`exc` oracle models the bare `except Exception` handler: `some e` means one
of the three steps of the `try` block raised an exception rendering as `e`
(as written, the steps are themselves fail-soft, so this is the residual
defensive path, e.g. malformed retrieved records). -/
def process_query (env : Env) (llm : LLM) (exc : Option String) (st : Store)
    (query : String) (n_results : Nat) : QueryResult :=
  match exc with
  | some e =>
    { query := query
      response := "I apologize, but I encountered an error while processing your request: " ++ e
      retrieved_documents := []
      context := "" }
  | none =>
    let retrieved_docs := retrieve_relevant_context env st query n_results none none
    let context := build_context_prompt query retrieved_docs
    { query := query
      response := generate_travel_response llm query context
      retrieved_documents := retrieved_docs
      context := context }

/-- Result record of TravelRAGPipeline.create_travel_plan. -/
structure PlanResult where
  user_preferences : Prefs
  travel_plan : String
  recommendations : List SearchResult
  context : String
deriving DecidableEq, Repr

/-- The synthetic context query of create_travel_plan (line 57):
`f"travel plan for {user_preferences.get('destination', 'travel')}"`. -/
def plan_query (prefs : Prefs) : String :=
  "travel plan for " ++ (match prefsGet prefs "destination" with
                         | some v => pyStr v
                         | none => "travel")

/-- TravelRAGPipeline.create_travel_plan (rag_pipeline.py lines 49-78), with
the same `exc` convention as `process_query`. -/
def create_travel_plan (env : Env) (llm : LLM) (exc : Option String) (st : Store)
    (prefs : Prefs) : PlanResult :=
  match exc with
  | some e =>
    { user_preferences := prefs
      travel_plan := "I apologize, but I encountered an error while creating your travel plan: " ++ e
      recommendations := []
      context := "" }
  | none =>
    let recommendations := get_travel_recommendations env st prefs
    let context := build_context_prompt (plan_query prefs) recommendations
    { user_preferences := prefs
      travel_plan := generate_travel_plan llm prefs context
      recommendations := recommendations
      context := context }

/-- Result record of TravelRAGPipeline.search_destinations; the `error` key
is present exactly in the exception branch (`Option` models key presence). -/
structure DestSearchResult where
  search_term : String
  destinations : List DestEntry
  count : Nat
  error : Option String
deriving DecidableEq, Repr

/-- TravelRAGPipeline.search_destinations (rag_pipeline.py lines 111-129),
with the same `exc` convention as `process_query`: `exc` is an exception
raised inside the orchestrator's own `try` block.  Note that
`retriever.search_destinations` catches its own exceptions and returns `[]`,
so a retrieval failure does not reach this handler. -/
def pipeline_search_destinations (env : Env) (exc : Option String) (st : Store)
    (search_term : String) : DestSearchResult :=
  match exc with
  | some e => { search_term := search_term, destinations := [], count := 0, error := some e }
  | none =>
    let destinations := retriever_search_destinations env st search_term
    { search_term := search_term
      destinations := destinations
      count := destinations.length
      error := none }

/-- Occurrence of a string as a contiguous substring of another string. -/
def SubstrOf (t s : String) : Prop := ∃ a b, s.data = a ++ t.data ++ b

/-- Occurrence of each listed string as a contiguous substring, in list
order and without overlap: each occurrence lies strictly after the previous
one. -/
def OrderedSubstrings : List String → List Char → Prop
  | [], _ => True
  | t :: ts, s => ∃ a b, s = a ++ t.data ++ b ∧ OrderedSubstrings ts b

/-- Executable test that `t` is a leading segment of `s`. -/
def prefB : List Char → List Char → Bool
  | [], _ => true
  | _ :: _, [] => false
  | a :: t, b :: s => a == b && prefB t s

/-- Executable contiguous-substring test. -/
def subB : List Char → List Char → Bool
  | t, [] => t.isEmpty
  | t, c :: s => prefB t (c :: s) || subB t s

/-- A deterministic embedding oracle used by concrete witnesses: the vector
only depends on the text length, which is all the nearest-neighbour logic
can observe here. -/
def okEnv : Env := ⟨fun s => Except.ok [Int.ofNat s.length], none, false⟩

/-- An environment whose embedding model always raises. -/
def failEnv : Env := ⟨fun _ => Except.error "model down", none, false⟩

/-- A fully tagged sample document. -/
def parisDoc : TravelDoc :=
  ⟨"Paris has the Eiffel Tower.", some "g.txt", some "Paris Guide", some "Paris", some "city_guide"⟩

/-- A bare document carrying only content. -/
def genDoc : TravelDoc := ⟨"Pack light.", none, none, none, none⟩

/-- Index holding `parisDoc` alone. -/
def st1 : Store := (add_travel_documents okEnv ⟨[]⟩ [parisDoc]).2

/-- Index after a second successful add on top of `st1`. -/
def st1b : Store := (add_travel_documents okEnv st1 [genDoc]).2

/-- Index holding `parisDoc` and `genDoc`, added as one batch. -/
def st2 : Store := (add_travel_documents okEnv ⟨[]⟩ [parisDoc, genDoc]).2

/-- Index holding only the untagged document. -/
def stG : Store := (add_travel_documents okEnv ⟨[]⟩ [genDoc]).2

/-- A generation call that always raises. -/
def apiFail : String → String → Except String String := fun _ _ => Except.error "API error"

/-- The structured preferences of the spec's travel-plan test. -/
def parisPrefs : Prefs :=
  [("destination", PrefValue.str "Paris"), ("budget", PrefValue.str "Mid-range"),
   ("duration", PrefValue.str "5 days"), ("interests", PrefValue.list ["Museums", "Food"])]

theorem embedAll_ok_length (f : String → Except String Embedding) (ts : List String)
    (vs : List Embedding) (h : embedAll f ts = Except.ok vs) : vs.length = ts.length := by
  induction ts generalizing vs with
  | nil =>
    simp only [embedAll] at h
    cases h
    rfl
  | cons t ts ih =>
    rw [embedAll] at h
    cases hf : f t with
    | error e => rw [hf] at h; cases h
    | ok v =>
      rw [hf] at h
      cases hr : embedAll f ts with
      | error e => rw [hr] at h; cases h
      | ok vs' =>
        rw [hr] at h
        cases h
        simp [ih vs' hr]

theorem batchIds_length (k : Nat) : (batchIds k).length = k := by
  simp [batchIds]

theorem mkRecords_map_id (ids ts : List String) (es : List Embedding) (ms : List DocMeta)
    (h1 : ts.length = ids.length) (h2 : es.length = ids.length) (h3 : ms.length = ids.length) :
    (mkRecords ids ts es ms).map (fun r => r.id) = ids := by
  induction ids generalizing ts es ms with
  | nil =>
    cases ts with
    | nil => cases es <;> cases ms <;> simp [mkRecords]
    | cons t ts => simp at h1
  | cons i ids ih =>
    cases ts with
    | nil => simp at h1
    | cons t ts =>
      cases es with
      | nil => simp at h2
      | cons e es =>
        cases ms with
        | nil => simp at h3
        | cons m ms =>
          simp only [mkRecords, List.map_cons]
          simp at h1 h2 h3
          rw [ih ts es ms h1 h2 h3]

theorem mkRecords_map_metadata (ids ts : List String) (es : List Embedding) (ms : List DocMeta)
    (h1 : ts.length = ids.length) (h2 : es.length = ids.length) (h3 : ms.length = ids.length) :
    (mkRecords ids ts es ms).map (fun r => r.metadata) = ms := by
  induction ids generalizing ts es ms with
  | nil =>
    have hms : ms = [] := by simpa using h3
    subst hms
    cases ts <;> cases es <;> simp [mkRecords]
  | cons i ids ih =>
    cases ts with
    | nil => simp at h1
    | cons t ts =>
      cases es with
      | nil => simp at h2
      | cons e es =>
        cases ms with
        | nil => simp at h3
        | cons m ms =>
          simp only [mkRecords, List.map_cons]
          simp at h1 h2 h3
          rw [ih ts es ms h1 h2 h3]

theorem add_documents_ok_records (env : Env) (st : Store) (docs : List TravelDoc) (st' : Store)
    (h : add_documents env st docs = Except.ok st') :
    ∃ vs, embedAll env.embed (docs.map (fun d => d.content)) = Except.ok vs ∧
      st'.records = st.records ++ mkRecords (batchIds docs.length) (docs.map (fun d => d.content)) vs (docs.map docMetadata) := by
  simp only [add_documents] at h
  cases hemb : embedAll env.embed (docs.map fun d => d.content) with
  | error e => rw [hemb] at h; cases h
  | ok vs =>
    rw [hemb] at h
    cases haf : env.addFail with
    | some e => rw [haf] at h; cases h
    | none =>
      rw [haf] at h
      cases h
      exact ⟨vs, rfl, rfl⟩

/-- Claim C1: for every batch of documents whose embedding or storage step
fails, add_travel_documents returns a result with status "error" and
documents_added 0, and the index state — in particular
stats().total_documents — is exactly what it was before the call: no partial
ingestion is observable. -/
theorem add_documents_failure_atomic (env : Env) (st : Store) (documents : List TravelDoc)
    (h : (∃ e, embedAll env.embed (documents.map (fun d => d.content)) = Except.error e)
         ∨ env.addFail.isSome = true) :
    (add_travel_documents env st documents).1.status = "error" ∧
    (add_travel_documents env st documents).1.documents_added = 0 ∧
    (add_travel_documents env st documents).2 = st ∧
    (get_collection_stats (add_travel_documents env st documents).2).total_documents
      = (get_collection_stats st).total_documents := by
  have hsplit : ∃ e, add_documents env st documents = Except.error e := by
    rcases h with ⟨e, he⟩ | hf
    · exact ⟨e, by simp [add_documents, he]⟩
    · cases hemb : embedAll env.embed (documents.map fun d => d.content) with
      | error e => exact ⟨e, by simp [add_documents, hemb]⟩
      | ok vs =>
        cases haf : env.addFail with
        | none => simp [haf] at hf
        | some e => exact ⟨e, by simp [add_documents, hemb, haf]⟩
  obtain ⟨e, he⟩ := hsplit
  simp [add_travel_documents, he]

/-- Witness for C1: a failing embedding model on a one-document batch over
the two-document index `st2`. -/
theorem add_documents_failure_atomic_witness :
    ((∃ e, embedAll failEnv.embed ([parisDoc].map (fun d => d.content)) = Except.error e)
       ∨ failEnv.addFail.isSome = true) ∧
    (add_travel_documents failEnv st2 [parisDoc]).1.status = "error" ∧
    (add_travel_documents failEnv st2 [parisDoc]).1.documents_added = 0 ∧
    (add_travel_documents failEnv st2 [parisDoc]).2 = st2 ∧
    (get_collection_stats (add_travel_documents failEnv st2 [parisDoc]).2).total_documents
      = (get_collection_stats st2).total_documents :=
  ⟨Or.inl ⟨"model down", rfl⟩,
   add_documents_failure_atomic failEnv st2 [parisDoc] (Or.inl ⟨"model down", rfl⟩)⟩

/-- Counterexample to claim C6: a document with neither destination nor
category is stored with destination "" (not "general") and category
"general" (not "guide"). -/
theorem metadata_defaults_counterexample :
    genDoc.destination = none ∧ genDoc.category = none ∧
    stG.records.map (fun r => r.metadata.destination) = [""] ∧
    stG.records.map (fun r => r.metadata.category) = ["general"] ∧
    stG.records.map (fun r => r.metadata.destination) ≠ ["general"] ∧
    stG.records.map (fun r => r.metadata.category) ≠ ["guide"] := by decide

/-- Claim C6 (amended): the stored metadata of every added document is
`docMetadata`, whose destination tag defaults to "" and whose category tag
defaults to "general" when the corresponding field is missing (the
"general"/"guide" defaults of the claim belong to the external ingestion
collaborator, not to the index). -/
theorem metadata_defaults (env : Env) (st st' : Store) (docs : List TravelDoc)
    (h : add_documents env st docs = Except.ok st') :
    st'.records.map (fun r => r.metadata)
      = st.records.map (fun r => r.metadata) ++ docs.map docMetadata ∧
    (∀ d : TravelDoc, d.destination = none → (docMetadata d).destination = "") ∧
    (∀ d : TravelDoc, d.category = none → (docMetadata d).category = "general") := by
  obtain ⟨vs, hvs, hrec⟩ := add_documents_ok_records env st docs st' h
  have hlen : vs.length = docs.length := by
    have := embedAll_ok_length env.embed _ vs hvs
    simpa using this
  refine ⟨?_, ?_, ?_⟩
  · rw [hrec, List.map_append,
      mkRecords_map_metadata _ _ _ _ (by simp [batchIds_length])
        (by simp [batchIds_length, hlen]) (by simp [batchIds_length])]
  · intro d hd; simp [docMetadata, hd]
  · intro d hd; simp [docMetadata, hd]

/-- Witness for the amended C6: adding the bare document to an empty index. -/
theorem metadata_defaults_witness :
    add_documents okEnv ⟨[]⟩ [genDoc] = Except.ok stG ∧
    (stG.records.map (fun r => r.metadata)
      = (Store.mk []).records.map (fun r => r.metadata) ++ [genDoc].map docMetadata ∧
     (∀ d : TravelDoc, d.destination = none → (docMetadata d).destination = "") ∧
     (∀ d : TravelDoc, d.category = none → (docMetadata d).category = "general")) :=
  ⟨by rfl, metadata_defaults okEnv ⟨[]⟩ stG [genDoc] (by rfl)⟩

/-- Counterexample to claim C7: two consecutive successful one-document adds
both assign the id "doc_0", so the index ends up with two records carrying
the same id. -/
theorem ids_reused_counterexample :
    (add_travel_documents okEnv ⟨[]⟩ [parisDoc]).1.status = "success" ∧
    (add_travel_documents okEnv st1 [genDoc]).1.status = "success" ∧
    st1b.records.map (fun r => r.id) = ["doc_0", "doc_0"] ∧
    ¬ (st1b.records.map (fun r => r.id)).Nodup := by decide

/-- Claim C7 (amended): a successful add appends records whose ids are
exactly "doc_0" … "doc_{k-1}" for a batch of size k, independent of the
existing index contents — so ids are determined by batch position alone and
a later add of the same batch size reuses exactly the ids of an earlier
one. -/
theorem add_ids_assignment (env : Env) (st st' : Store) (docs : List TravelDoc)
    (h : add_documents env st docs = Except.ok st') :
    st'.records.map (fun r => r.id)
      = st.records.map (fun r => r.id) ++ batchIds docs.length := by
  obtain ⟨vs, hvs, hrec⟩ := add_documents_ok_records env st docs st' h
  have hlen : vs.length = docs.length := by
    have := embedAll_ok_length env.embed _ vs hvs
    simpa using this
  rw [hrec, List.map_append,
    mkRecords_map_id _ _ _ _ (by simp [batchIds_length])
      (by simp [batchIds_length, hlen]) (by simp [batchIds_length])]

/-- Witness for the amended C7: the second add on top of `st1` appends the
id "doc_0" again. -/
theorem add_ids_assignment_witness :
    add_documents okEnv st1 [genDoc] = Except.ok st1b ∧
    st1b.records.map (fun r => r.id)
      = st1.records.map (fun r => r.id) ++ batchIds ([genDoc] : List TravelDoc).length :=
  ⟨by rfl, add_ids_assignment okEnv st1 st1b [genDoc] (by rfl)⟩

/-- Claim C2: in create_travel_plan, when retrieval succeeded and only the
generation call fails, the returned record preserves the retrieved
recommendations list unchanged (and the assembled context), and only
travel_plan becomes the generator's apology string. -/
theorem create_travel_plan_generation_failure (env : Env) (st : Store) (prefs : Prefs)
    (call : String → String → Except String String) (e : String)
    (hcall : ∀ s u, call s u = Except.error e) :
    (create_travel_plan env (some call) none st prefs).recommendations
      = get_travel_recommendations env st prefs ∧
    (create_travel_plan env (some call) none st prefs).travel_plan
      = "I apologize, but I encountered an error while creating your travel plan. Please try again." ∧
    (create_travel_plan env (some call) none st prefs).context
      = build_context_prompt (plan_query prefs) (get_travel_recommendations env st prefs) ∧
    (create_travel_plan env (some call) none st prefs).user_preferences = prefs := by
  refine ⟨rfl, ?_, rfl, rfl⟩
  simp [create_travel_plan, generate_travel_plan, hcall]

/-- Witness for C2: a failing generation call over the Paris corpus; the
preserved recommendations list is non-empty. -/
theorem create_travel_plan_generation_failure_witness :
    (create_travel_plan okEnv (some apiFail) none st2 parisPrefs).recommendations
      = get_travel_recommendations okEnv st2 parisPrefs ∧
    (create_travel_plan okEnv (some apiFail) none st2 parisPrefs).travel_plan
      = "I apologize, but I encountered an error while creating your travel plan. Please try again." ∧
    get_travel_recommendations okEnv st2 parisPrefs ≠ [] :=
  ⟨(create_travel_plan_generation_failure okEnv st2 parisPrefs apiFail "API error" (fun _ _ => rfl)).1,
   (create_travel_plan_generation_failure okEnv st2 parisPrefs apiFail "API error" (fun _ _ => rfl)).2.1,
   by decide⟩

/-- Claim C5: process_query always returns the fixed four-field record shape
(the `QueryResult` structure) with the original query; when an internal
exception occurs it carries the apology response, an empty
retrieved_documents list and an empty context, and otherwise the three
computed fields; being a total function it never raises past the
orchestrator. -/
theorem process_query_spec (env : Env) (llm : LLM) (exc : Option String) (st : Store)
    (q : String) (n : Nat) :
    (process_query env llm exc st q n).query = q ∧
    (∀ e, exc = some e →
      process_query env llm exc st q n =
        { query := q
          response := "I apologize, but I encountered an error while processing your request: " ++ e
          retrieved_documents := []
          context := "" }) ∧
    (exc = none →
      (process_query env llm exc st q n).retrieved_documents
        = retrieve_relevant_context env st q n none none ∧
      (process_query env llm exc st q n).context
        = build_context_prompt q (retrieve_relevant_context env st q n none none) ∧
      (process_query env llm exc st q n).response
        = generate_travel_response llm q
            (build_context_prompt q (retrieve_relevant_context env st q n none none))) := by
  cases exc <;> simp [process_query]

/-- Witness for C5: the exception branch at a concrete input. -/
theorem process_query_spec_witness :
    process_query okEnv none (some "boom") st2 "Where should I go?" 5 =
      { query := "Where should I go?"
        response := "I apologize, but I encountered an error while processing your request: boom"
        retrieved_documents := []
        context := "" } :=
  (process_query_spec okEnv none (some "boom") st2 "Where should I go?" 5).2.1 "boom" rfl

/-- Counterexample to claim C9: a failure of the underlying retrieval (the
embedding model raises) during the orchestrator's searchDestinations is
swallowed upstream: the returned record has destinations = [] and count = 0
but NO error field, indistinguishable from a genuine empty result. -/
theorem search_destinations_error_hidden_counterexample :
    (∃ e, failEnv.embed ("destinations and places to visit in " ++ "Europe") = Except.error e) ∧
    st2.records ≠ [] ∧
    pipeline_search_destinations failEnv none st2 "Europe"
      = { search_term := "Europe", destinations := [], count := 0, error := none } :=
  ⟨⟨"model down", rfl⟩, by decide, by decide⟩

/-- Claim C9 (amended): the error field is present exactly when an exception
reaches the orchestrator's own handler (the `exc` oracle); failures inside
the underlying retrieval are converted to an empty list by the retriever and
the vector store, so the orchestrator then returns destinations = [] and
count = 0 with error absent. -/
theorem pipeline_search_destinations_error_field (env : Env) (exc : Option String) (st : Store)
    (term : String) :
    (∀ e, exc = some e →
      pipeline_search_destinations env exc st term
        = { search_term := term, destinations := [], count := 0, error := some e }) ∧
    (exc = none →
      (pipeline_search_destinations env exc st term).error = none ∧
      (pipeline_search_destinations env exc st term).destinations
        = retriever_search_destinations env st term ∧
      (pipeline_search_destinations env exc st term).count
        = (retriever_search_destinations env st term).length) := by
  cases exc <;> simp [pipeline_search_destinations]

/-- Witness for the amended C9: a concrete orchestrator-level exception. -/
theorem pipeline_search_destinations_error_field_witness :
    pipeline_search_destinations okEnv (some "kaboom") st2 "Europe"
      = { search_term := "Europe", destinations := [], count := 0, error := some "kaboom" } :=
  (pipeline_search_destinations_error_field okEnv (some "kaboom") st2 "Europe").1 "kaboom" rfl

theorem queryCollection_length (records : List StoredRecord) (qe : Embedding) (n : Nat)
    (fd : Option (List (String × PrefValue))) :
    (queryCollection records qe n fd).length ≤ n := by
  simp only [queryCollection, List.length_take]
  exact Nat.min_le_left _ _

theorem queryCollection_sorted (records : List StoredRecord) (qe : Embedding) (n : Nat)
    (fd : Option (List (String × PrefValue))) :
    List.Pairwise distLE (queryCollection records qe n fd) :=
  List.Pairwise.sublist (List.take_sublist _ _) (List.sorted_insertionSort distLE _)

theorem queryCollection_mem (records : List StoredRecord) (qe : Embedding) (n : Nat)
    (fd : Option (List (String × PrefValue))) (rd : StoredRecord × Int)
    (hrd : rd ∈ queryCollection records qe n fd) :
    rd.1 ∈ records ∧ ∀ f, fd = some f → matchesFilter f rd.1.metadata = true := by
  simp only [queryCollection] at hrd
  have h1 := List.mem_of_mem_take hrd
  have h2 := (List.perm_insertionSort distLE _).mem_iff.mp h1
  obtain ⟨c, hc, hrfl⟩ := List.mem_map.mp h2
  obtain ⟨hcr, hpred⟩ := List.mem_filter.mp hc
  constructor
  · rw [← hrfl]; exact hcr
  · intro f hfd
    rw [← hrfl]
    rw [hfd] at hpred
    exact hpred

/-- Claim C3: for every query and every n, search returns at most n items,
sorted by non-decreasing distance (non-increasing relevance), every returned
item's metadata satisfies each supplied exact-match filter predicate; on an
internal error (embedding failure or query failure) or on an empty index it
returns the empty list, and as a total function it never raises. -/
theorem vs_search_spec (env : Env) (st : Store) (q : String) (n : Nat)
    (fd : Option (List (String × PrefValue))) :
    (vs_search env st q n fd).length ≤ n ∧
    List.Pairwise (fun a b : SearchResult => a.distance ≤ b.distance) (vs_search env st q n fd) ∧
    (∀ f, fd = some f → ∀ r ∈ vs_search env st q n fd, matchesFilter f r.metadata = true) ∧
    (st.records = [] → vs_search env st q n fd = []) ∧
    (∀ e, env.embed q = Except.error e → vs_search env st q n fd = []) ∧
    (env.queryFail = true → vs_search env st q n fd = []) := by
  cases hemb : env.embed q with
  | error e => simp [vs_search, hemb]
  | ok qe =>
    by_cases hqf : env.queryFail = true
    · simp [vs_search, hemb, hqf]
    · have hout : vs_search env st q n fd = (queryCollection st.records qe n fd).map
        (fun rd => { content := rd.1.content, metadata := rd.1.metadata, distance := rd.2 }) := by
        simp [vs_search, hemb, hqf]
      refine ⟨?_, ?_, ?_, ?_, ?_, ?_⟩
      · rw [hout, List.length_map]
        exact queryCollection_length st.records qe n fd
      · rw [hout, List.pairwise_map]
        exact queryCollection_sorted st.records qe n fd
      · intro f hfd r hr
        rw [hout] at hr
        obtain ⟨rd, hrd, hrfl⟩ := List.mem_map.mp hr
        rw [← hrfl]
        exact (queryCollection_mem st.records qe n fd rd hrd).2 f hfd
      · intro hrec
        rw [hout]
        simp [queryCollection, hrec]
      · intro e he
        exact Except.noConfusion he
      · intro h
        exact absurd h hqf

/-- Witness for C3: a one-result cap over the two-document index, and the
empty result under a failing embedding model. -/
theorem vs_search_spec_witness :
    (vs_search okEnv st2 "warm beach" 1 none).length ≤ 1 ∧
    vs_search failEnv st2 "warm beach" 1 none = [] :=
  ⟨(vs_search_spec okEnv st2 "warm beach" 1 none).1,
   (vs_search_spec failEnv st2 "warm beach" 1 none).2.2.2.2.1 "model down" rfl⟩


theorem dedupStep_mem (acc : List String) (doc : SearchResult) (d : String) :
    d ∈ dedupStep acc doc ↔
      d ∈ acc ∨ (doc.metadata.destination = d ∧ d ≠ "" ∧ strLower d ≠ "general") := by
  unfold dedupStep
  by_cases h1 : doc.metadata.destination = ""
  · rw [if_neg (by simp [h1])]
    constructor
    · exact Or.inl
    · rintro (h | ⟨hd, hne, _⟩)
      · exact h
      · exact absurd (hd ▸ h1) hne
  · by_cases h2 : strLower doc.metadata.destination = "general"
    · rw [if_neg (by simp [h2])]
      constructor
      · exact Or.inl
      · rintro (h | ⟨hd, _, hg⟩)
        · exact h
        · exact absurd (hd ▸ h2) hg
    · by_cases h3 : doc.metadata.destination ∈ acc
      · rw [if_neg (by simp [h1, h2, h3])]
        constructor
        · exact Or.inl
        · rintro (h | ⟨hd, _, _⟩)
          · exact h
          · rw [← hd]; exact h3
      · rw [if_pos (by simp [h1, h2, h3])]
        simp only [List.mem_append, List.mem_singleton]
        constructor
        · rintro (h | h)
          · exact Or.inl h
          · exact Or.inr ⟨h.symm, by rw [h]; exact ⟨h1, h2⟩⟩
        · rintro (h | ⟨hd, _, _⟩)
          · exact Or.inl h
          · exact Or.inr hd.symm

theorem dedupFold_mem (results : List SearchResult) :
    ∀ (acc : List String) (d : String),
      d ∈ results.foldl dedupStep acc ↔
        d ∈ acc ∨ ∃ r ∈ results, r.metadata.destination = d ∧ d ≠ "" ∧ strLower d ≠ "general" := by
  induction results with
  | nil => intro acc d; simp
  | cons doc rest ih =>
    intro acc d
    rw [List.foldl_cons, ih, dedupStep_mem, List.exists_mem_cons_iff]
    tauto

theorem dedupStep_nodup (acc : List String) (doc : SearchResult) (h : acc.Nodup) :
    (dedupStep acc doc).Nodup := by
  unfold dedupStep
  show (if !(doc.metadata.destination == "") && !(strLower doc.metadata.destination == "general")
          && !(acc.contains doc.metadata.destination)
        then acc ++ [doc.metadata.destination] else acc).Nodup
  by_cases hc : doc.metadata.destination ∈ acc
  · rw [if_neg (by simp [hc])]
    exact h
  · by_cases hcond : (!(doc.metadata.destination == "") && !(strLower doc.metadata.destination == "general")
        && !(acc.contains doc.metadata.destination)) = true
    · rw [if_pos hcond]
      simp [List.nodup_append, h, hc]
    · rw [if_neg hcond]
      exact h

theorem dedupFold_nodup (results : List SearchResult) :
    ∀ (acc : List String), acc.Nodup → (results.foldl dedupStep acc).Nodup := by
  induction results with
  | nil => intro acc h; simpa using h
  | cons doc rest ih =>
    intro acc h
    rw [List.foldl_cons]
    exact ih _ (dedupStep_nodup acc doc h)

/-- Counterexample to claim C8: over an index whose only document carries
the empty destination tag, the retrieved results contain the distinct
destination tag "", yet searchDestinations returns no entry for it — the
code excludes every falsy tag, not only "general".  The count invariant
still holds, but "one entry per distinct destination tag occurring in the
retrieved results" is false. -/
theorem search_destinations_empty_tag_counterexample :
    (retrieve_relevant_context okEnv stG ("destinations and places to visit in " ++ "anywhere")
        10 none none).map (fun r => r.metadata.destination) = [""] ∧
    retriever_search_destinations okEnv stG "anywhere" = [] ∧
    pipeline_search_destinations okEnv none stG "anywhere"
      = { search_term := "anywhere", destinations := [], count := 0, error := none } := by
  decide

/-- Claim C8 (amended): searchDestinations returns one entry per distinct
non-empty destination tag occurring in the retrieved results whose
lowercasing is not "general"; the entries are duplicate-free and never
"general" under case-insensitive comparison, and the orchestrator's count
field equals the length of the destinations list. -/
theorem search_destinations_spec (env : Env) (st : Store) (term : String) :
    (∀ d : String,
      (∃ en ∈ retriever_search_destinations env st term, en.destination = d) ↔
        ((∃ r ∈ retrieve_relevant_context env st
              ("destinations and places to visit in " ++ term) 10 none none,
            r.metadata.destination = d) ∧ d ≠ "" ∧ strLower d ≠ "general")) ∧
    ((retriever_search_destinations env st term).map (fun en => en.destination)).Nodup ∧
    (∀ en ∈ retriever_search_destinations env st term,
      en.destination ≠ "" ∧ strLower en.destination ≠ "general") ∧
    (pipeline_search_destinations env none st term).destinations
      = retriever_search_destinations env st term ∧
    (pipeline_search_destinations env none st term).count
      = (retriever_search_destinations env st term).length := by
  have hmem : ∀ d : String,
      d ∈ dedupDests (retrieve_relevant_context env st
            ("destinations and places to visit in " ++ term) 10 none none) ↔
        (∃ r ∈ retrieve_relevant_context env st
              ("destinations and places to visit in " ++ term) 10 none none,
            r.metadata.destination = d ∧ d ≠ "" ∧ strLower d ≠ "general") := by
    intro d
    unfold dedupDests
    rw [dedupFold_mem]
    simp
  refine ⟨?_, ?_, ?_, rfl, rfl⟩
  · intro d
    unfold retriever_search_destinations
    constructor
    · rintro ⟨en, hen, rfl⟩
      obtain ⟨x, hx, hxe⟩ := List.mem_map.mp hen
      obtain ⟨r, hr, h1, h2, h3⟩ := (hmem x).mp hx
      rw [← hxe]
      exact ⟨⟨r, hr, h1⟩, h2, h3⟩
    · rintro ⟨⟨r, hr, h1⟩, h2, h3⟩
      refine ⟨⟨d⟩, List.mem_map.mpr ⟨d, ?_, rfl⟩, rfl⟩
      exact (hmem d).mpr ⟨r, hr, h1, h2, h3⟩
  · unfold retriever_search_destinations
    rw [List.map_map]
    have : ((fun en => en.destination) ∘ fun d => DestEntry.mk d) = id := rfl
    rw [this, List.map_id]
    exact dedupFold_nodup _ [] List.nodup_nil
  · intro en hen
    unfold retriever_search_destinations at hen
    obtain ⟨x, hx, hxe⟩ := List.mem_map.mp hen
    obtain ⟨r, hr, h1, h2, h3⟩ := (hmem x).mp hx
    rw [← hxe]
    exact ⟨h2, h3⟩

/-- Witness for the amended C8: over the two-document index, the single
entry "Paris" without duplicates and with a matching count. -/
theorem search_destinations_spec_witness :
    ((retriever_search_destinations okEnv st2 "Europe").map (fun en => en.destination)).Nodup ∧
    (pipeline_search_destinations okEnv none st2 "Europe").count
      = (retriever_search_destinations okEnv st2 "Europe").length ∧
    retriever_search_destinations okEnv st2 "Europe" = [{ destination := "Paris" }] :=
  ⟨(search_destinations_spec okEnv st2 "Europe").2.1,
   (search_destinations_spec okEnv st2 "Europe").2.2.2.2,
   by decide⟩

theorem prefsGet_none_of_not_mem (p : Prefs) (k : String)
    (h : k ∉ p.map (fun kv => kv.1)) : prefsGet p k = none := by
  induction p with
  | nil => rfl
  | cons kv rest ih =>
    rw [List.map_cons] at h
    have h1 : k ≠ kv.1 := fun hh => h (hh ▸ List.mem_cons_self _ _)
    have h2 : k ∉ rest.map (fun kv => kv.1) := fun hh => h (List.mem_cons_of_mem _ hh)
    have hb : (kv.1 == k) = false := beq_eq_false_iff_ne.mpr (fun hh => h1 hh.symm)
    unfold prefsGet
    rw [List.find?_cons, hb]
    exact ih h2

theorem prefsGet_filter (p : Prefs) (h : (p.map (fun kv => kv.1)).Nodup) (k : String) :
    prefsGet (p.filter (fun kv => truthy kv.2)) k
      = (prefsGet p k).bind (fun v => if truthy v then some v else none) := by
  induction p with
  | nil => rfl
  | cons kv rest ih =>
    rw [List.map_cons, List.nodup_cons] at h
    obtain ⟨hk, hrest⟩ := h
    by_cases hkk : kv.1 = k
    · have hb : (kv.1 == k) = true := beq_iff_eq.mpr hkk
      by_cases ht : truthy kv.2 = true
      · rw [List.filter_cons, if_pos ht]
        unfold prefsGet
        rw [List.find?_cons, List.find?_cons, hb]
        simp [ht]
      · rw [List.filter_cons, if_neg (by simp [ht])]
        have hnone : prefsGet (rest.filter (fun kv => truthy kv.2)) k = none := by
          apply prefsGet_none_of_not_mem
          intro hmem
          apply hk
          rw [hkk]
          obtain ⟨kv', hkv', hkq⟩ := List.mem_map.mp hmem
          exact List.mem_map.mpr ⟨kv', (List.mem_filter.mp hkv').1, hkq⟩
        rw [hnone]
        unfold prefsGet
        rw [List.find?_cons, hb]
        have ht' : truthy kv.2 = false := by
          rw [← Bool.not_eq_true]
          exact ht
        simp [ht']
    · have hb : (kv.1 == k) = false := beq_eq_false_iff_ne.mpr hkk
      by_cases ht : truthy kv.2 = true
      · rw [List.filter_cons, if_pos ht]
        unfold prefsGet
        rw [List.find?_cons, hb, List.find?_cons, hb]
        exact ih hrest
      · rw [List.filter_cons, if_neg ht, ih hrest]
        unfold prefsGet
        rw [List.find?_cons, hb]

theorem queryPart_bind (o : Option PrefValue) (g : PrefValue → String) :
    queryPart (o.bind (fun v => if truthy v then some v else none)) g = queryPart o g := by
  cases o with
  | none => rfl
  | some v =>
    by_cases h : truthy v = true <;> simp [queryPart, h]

theorem filterEntry_bind (k : String) (o : Option PrefValue) :
    filterEntry k (o.bind (fun v => if truthy v then some v else none)) = filterEntry k o := by
  cases o with
  | none => rfl
  | some v =>
    by_cases h : truthy v = true <;> simp [filterEntry, h]

theorem rec_query_filter (prefs : Prefs) (h : (prefs.map (fun kv => kv.1)).Nodup) :
    rec_query (prefs.filter (fun kv => truthy kv.2)) = rec_query prefs := by
  unfold rec_query
  rw [prefsGet_filter prefs h "destination", prefsGet_filter prefs h "budget",
    prefsGet_filter prefs h "duration", prefsGet_filter prefs h "interests",
    queryPart_bind, queryPart_bind, queryPart_bind, queryPart_bind]

/-- Claim C10: a preference field present with a falsy value (empty string,
empty list, None) is treated exactly like an absent field: dropping all
falsy entries changes neither the derived recommendation query, nor the
recommendation retrieval, nor the formatted preference text; when every
field is falsy the query falls back to "travel recommendations". -/
theorem falsy_preferences_ignored (prefs : Prefs)
    (h : (prefs.map (fun kv => kv.1)).Nodup) :
    rec_query prefs = rec_query (prefs.filter (fun kv => truthy kv.2)) ∧
    (∀ env st, get_travel_recommendations env st prefs
       = get_travel_recommendations env st (prefs.filter (fun kv => truthy kv.2))) ∧
    format_preferences prefs = format_preferences (prefs.filter (fun kv => truthy kv.2)) ∧
    ((∀ kv ∈ prefs, truthy kv.2 = false) → rec_query prefs = "travel recommendations") := by
  refine ⟨(rec_query_filter prefs h).symm, ?_, ?_, ?_⟩
  · intro env st
    unfold get_travel_recommendations
    rw [rec_query_filter prefs h, prefsGet_filter prefs h "destination"]
    unfold retrieve_relevant_context
    rw [filterEntry_bind]
  · unfold format_preferences
    rw [List.filter_filter]
    simp
  · intro hfal
    have hqp : ∀ (k : String) (g : PrefValue → String), queryPart (prefsGet prefs k) g = [] := by
      intro k g
      cases hk : prefsGet prefs k with
      | none => rfl
      | some v =>
        unfold prefsGet at hk
        obtain ⟨kv, hfind, hv⟩ := Option.map_eq_some'.mp hk
        have hmem := List.mem_of_find?_eq_some hfind
        have := hfal kv hmem
        rw [hv] at this
        simp [queryPart, this]
    unfold rec_query
    rw [hqp, hqp, hqp, hqp]
    rfl

/-- Witness for C10: preferences whose fields are all present but falsy
collapse to the generic query. -/
theorem falsy_preferences_ignored_witness :
    (([("destination", PrefValue.str ""), ("budget", PrefValue.noneV),
       ("interests", PrefValue.list []), ("travel_style", PrefValue.str "")] : Prefs).map
        (fun kv => kv.1)).Nodup ∧
    rec_query [("destination", PrefValue.str ""), ("budget", PrefValue.noneV),
       ("interests", PrefValue.list []), ("travel_style", PrefValue.str "")]
      = "travel recommendations" :=
  ⟨by decide,
   (falsy_preferences_ignored
      [("destination", PrefValue.str ""), ("budget", PrefValue.noneV),
       ("interests", PrefValue.list []), ("travel_style", PrefValue.str "")]
      (by decide)).2.2.2 (by decide)⟩

theorem prefB_refl_append (t b : List Char) : prefB t (t ++ b) = true := by
  induction t with
  | nil => rfl
  | cons c t ih => simp [prefB, ih]

theorem subB_self (t b : List Char) : subB t (t ++ b) = true := by
  cases hs : t ++ b with
  | nil =>
    obtain ⟨ht, hb⟩ := List.append_eq_nil.mp hs
    subst ht
    rfl
  | cons c s =>
    have hp : prefB t (c :: s) = true := hs ▸ prefB_refl_append t b
    simp only [subB, Bool.or_eq_true]
    exact Or.inl hp

theorem subB_of_eq_append (a : List Char) (t b s : List Char) (h : s = a ++ t ++ b) :
    subB t s = true := by
  induction a generalizing s with
  | nil =>
    rw [h]
    simpa using subB_self t b
  | cons c a ih =>
    subst h
    have htail := ih (a ++ t ++ b) rfl
    simp only [subB, Bool.or_eq_true]
    exact Or.inr htail

/-- Counterexample to claim C4: the empty-result marker rendered by
build_context_prompt is "No relevant travel information found." with a
capital N, so the output does not contain the literal lowercase string
"no relevant". -/
theorem no_relevant_marker_counterexample :
    ¬ SubstrOf "no relevant" (build_context_prompt "Where should I go?" []) := by
  intro h
  obtain ⟨a, b, hab⟩ := h
  have hsub := subB_of_eq_append a ("no relevant").data b _ hab
  exact absurd hsub (by decide)

theorem orderedSubstrings_prepend (l : List String) (pre s : List Char)
    (h : OrderedSubstrings l s) : OrderedSubstrings l (pre ++ s) := by
  cases l with
  | nil => trivial
  | cons t ts =>
    obtain ⟨a, b, hs, hrest⟩ := h
    exact ⟨pre ++ a, b, by rw [hs]; simp, hrest⟩

theorem orderedSubstrings_mem (l : List String) (s : List Char) (t : String)
    (h : OrderedSubstrings l s) (ht : t ∈ l) : ∃ a b, s = a ++ t.data ++ b := by
  induction l generalizing s with
  | nil => cases ht
  | cons hd tl ih =>
    obtain ⟨a, b, hs, hrest⟩ := h
    rcases List.mem_cons.mp ht with rfl | htl
    · exact ⟨a, b, hs⟩
    · obtain ⟨a', b', hb⟩ := ih b hrest htl
      exact ⟨a ++ hd.data ++ a', b', by rw [hs, hb]; simp⟩

theorem joinLines_cons (x : String) (ys : List String) (h : ys ≠ []) :
    joinLines (x :: ys) = x ++ "\n" ++ joinLines ys := by
  cases ys with
  | nil => exact absurd rfl h
  | cons y ys => rfl

theorem ordered_blocks (docs : List SearchResult) :
    ∀ k : Nat,
      OrderedSubstrings (docs.flatMap (fun d => [metaLine d.metadata, "Content: " ++ d.content]))
        (joinLines ((enumFrom k docs).flatMap (fun p => docBlock p.1 p.2))).data := by
  induction docs with
  | nil => intro k; trivial
  | cons d ds ih =>
    intro k
    have henum : enumFrom k (d :: ds) = (k, d) :: enumFrom (k + 1) ds := rfl
    rw [List.flatMap_cons, henum, List.flatMap_cons]
    cases ds with
    | nil =>
      show OrderedSubstrings [metaLine d.metadata, "Content: " ++ d.content]
        (joinLines (docBlock k d ++ [])).data
      have hjoin : joinLines (docBlock k d ++ []) =
          ("\n--- Document " ++ toString k ++ " ---") ++ "\n" ++
            (metaLine d.metadata ++ "\n" ++ ("Content: " ++ d.content)) := rfl
      rw [hjoin]
      refine ⟨("\n--- Document " ++ toString k ++ " ---").data ++ ("\n" : String).data,
        ("\n" : String).data ++ ("Content: " ++ d.content).data, by simp [String.data_append], ?_⟩
      exact ⟨("\n" : String).data, [], by simp [String.data_append], trivial⟩
    | cons d' ds' =>
      have hrest : (enumFrom (k + 1) (d' :: ds')).flatMap (fun p => docBlock p.1 p.2) =
          docBlock (k + 1) d' ++ (enumFrom (k + 2) ds').flatMap (fun p => docBlock p.1 p.2) := rfl
      have hrest_ne : (enumFrom (k + 1) (d' :: ds')).flatMap (fun p => docBlock p.1 p.2) ≠ [] := by
        rw [hrest]
        simp [docBlock]
      have hj1 : joinLines (docBlock k d ++
            (enumFrom (k + 1) (d' :: ds')).flatMap (fun p => docBlock p.1 p.2)) =
          ("\n--- Document " ++ toString k ++ " ---") ++ "\n" ++
            (metaLine d.metadata ++ "\n" ++ (("Content: " ++ d.content) ++ "\n" ++
              joinLines ((enumFrom (k + 1) (d' :: ds')).flatMap (fun p => docBlock p.1 p.2)))) := by
        show joinLines (("\n--- Document " ++ toString k ++ " ---") :: metaLine d.metadata ::
            ("Content: " ++ d.content) ::
            (enumFrom (k + 1) (d' :: ds')).flatMap (fun p => docBlock p.1 p.2)) = _
        rw [joinLines_cons _ _ (by simp), joinLines_cons _ _ (by simp),
          joinLines_cons _ _ hrest_ne]
      rw [hj1]
      refine ⟨("\n--- Document " ++ toString k ++ " ---").data ++ ("\n" : String).data,
        ("\n" : String).data ++ (("Content: " ++ d.content).data ++ (("\n" : String).data ++
          (joinLines ((enumFrom (k + 1) (d' :: ds')).flatMap (fun p => docBlock p.1 p.2))).data)),
        by simp [String.data_append], ?_⟩
      refine ⟨("\n" : String).data, ("\n" : String).data ++
        (joinLines ((enumFrom (k + 1) (d' :: ds')).flatMap (fun p => docBlock p.1 p.2))).data,
        by simp [String.data_append], ?_⟩
      exact orderedSubstrings_prepend _ _ _ (ih (k + 1))

/-- Claim C4 (amended): buildContextPrompt is a deterministic rendering that
always contains the query verbatim; on an empty document list it contains
the marker "No relevant travel information found." (capital N — the claim's
lowercase "no relevant" literal does not occur); on a non-empty list it
contains, in input order, for each document its source/destination/category
line followed by its full content as an exact, unaltered substring. -/
theorem build_context_prompt_spec (q : String) (docs : List SearchResult) :
    SubstrOf q (build_context_prompt q docs) ∧
    (docs = [] → SubstrOf "No relevant travel information found." (build_context_prompt q docs)) ∧
    (∀ d ∈ docs, SubstrOf d.content (build_context_prompt q docs)) ∧
    (docs ≠ [] → OrderedSubstrings
      (docs.flatMap (fun d => [metaLine d.metadata, "Content: " ++ d.content]))
      (build_context_prompt q docs).data) := by
  cases docs with
  | nil =>
    refine ⟨?_, ?_, ?_, ?_⟩
    · refine ⟨("Query: " : String).data,
        ("\n\nNo relevant travel information found." : String).data, ?_⟩
      simp [build_context_prompt, String.data_append]
    · intro _
      have hsplit : ("\n\nNo relevant travel information found." : String).data
          = ("\n\n" : String).data ++ ("No relevant travel information found." : String).data := by
        decide
      refine ⟨("Query: " : String).data ++ q.data ++ ("\n\n" : String).data, [], ?_⟩
      simp [build_context_prompt, String.data_append, hsplit]
    · intro d hd
      cases hd
    · intro h
      exact absurd rfl h
  | cons d0 ds0 =>
    have hblocks_ne : (enumFrom 1 (d0 :: ds0)).flatMap (fun p => docBlock p.1 p.2) ≠ [] := by
      show (docBlock 1 d0 ++ (enumFrom 2 ds0).flatMap (fun p => docBlock p.1 p.2)) ≠ []
      simp [docBlock]
    have hbcp : build_context_prompt q (d0 :: ds0)
        = ("Query: " ++ q ++ "\n\nRelevant travel information:") ++ "\n" ++
          joinLines ((enumFrom 1 (d0 :: ds0)).flatMap (fun p => docBlock p.1 p.2)) := by
      show joinLines (("Query: " ++ q ++ "\n\nRelevant travel information:") ::
          (enumFrom 1 (d0 :: ds0)).flatMap (fun p => docBlock p.1 p.2)) = _
      exact joinLines_cons _ _ hblocks_ne
    have hord : OrderedSubstrings
        ((d0 :: ds0).flatMap (fun d => [metaLine d.metadata, "Content: " ++ d.content]))
        (build_context_prompt q (d0 :: ds0)).data := by
      rw [hbcp]
      have h1 := ordered_blocks (d0 :: ds0) 1
      have h2 := orderedSubstrings_prepend _
        ((("Query: " ++ q ++ "\n\nRelevant travel information:") : String).data
          ++ ("\n" : String).data) _ h1
      simpa [String.data_append] using h2
    refine ⟨?_, ?_, ?_, fun _ => hord⟩
    · refine ⟨("Query: " : String).data,
        ("\n\nRelevant travel information:" : String).data ++ ("\n" : String).data ++
          (joinLines ((enumFrom 1 (d0 :: ds0)).flatMap (fun p => docBlock p.1 p.2))).data, ?_⟩
      rw [hbcp]
      simp [String.data_append]
    · intro h
      exact absurd h (List.cons_ne_nil d0 ds0)
    · intro d hd
      have hmem : ("Content: " ++ d.content) ∈ (d0 :: ds0).flatMap
          (fun d => [metaLine d.metadata, "Content: " ++ d.content]) :=
        List.mem_flatMap.mpr ⟨d, hd, by simp⟩
      obtain ⟨a, b, hab⟩ := orderedSubstrings_mem _ _ _ hord hmem
      refine ⟨a ++ ("Content: " : String).data, b, ?_⟩
      rw [hab]
      simp [String.data_append]

/-- Witness for the amended C4: the capitalised marker on an empty list, and
the ordered blocks over a concrete retrieved list. -/
theorem build_context_prompt_spec_witness :
    SubstrOf "No relevant travel information found." (build_context_prompt "Trip" []) ∧
    OrderedSubstrings
      ((retrieve_relevant_context okEnv st2 "Trip" 5 none none).flatMap
        (fun d => [metaLine d.metadata, "Content: " ++ d.content]))
      (build_context_prompt "Trip" (retrieve_relevant_context okEnv st2 "Trip" 5 none none)).data :=
  ⟨(build_context_prompt_spec "Trip" []).2.1 rfl,
   (build_context_prompt_spec "Trip" (retrieve_relevant_context okEnv st2 "Trip" 5 none none)).2.2.2
     (by decide)⟩
